import Mathlib

/-!
# Verification of the download queue and lifecycle manager

Shallow embedding of `src/download_manager.py` (the Queue Manager,
Transfer Worker and Record Store of the repository) together with proofs
about its claimed properties.

Conventions of the embedding:
* Python `int` becomes `Int` (or `Nat` for counts), `float` becomes `Rat`,
  `str` becomes `String`.
* The SQLite table `downloads` becomes a list of `Row` values upserted by
  primary key `id`; `INSERT OR REPLACE` is modelled by replace-or-append.
* Qt signals become explicit event lists returned by each operation.
* The process clock (`time.time()`, `datetime.now()`) is passed in as the
  string the Python f-string interpolation would produce.
* Worker threads become explicit `WorkerState` values; a worker whose
  `run` method has not returned has `executing = true`.
-/

/-- The `DownloadStatus` enum of `download_manager.py`. -/
inductive DownloadStatus where
  | pending
  | downloading
  | completed
  | failed
  | cancelled
  | paused
deriving DecidableEq, Repr

/-- The `.value` string of each `DownloadStatus` member. -/
def DownloadStatus.value : DownloadStatus → String
  | .pending => "pending"
  | .downloading => "downloading"
  | .completed => "completed"
  | .failed => "failed"
  | .cancelled => "cancelled"
  | .paused => "paused"

/-- Construction `DownloadStatus(s)` from a value string; `none` models the
`ValueError` raised on an unknown value. -/
def statusOfValue (s : String) : Option DownloadStatus :=
  if s = "pending" then some .pending
  else if s = "downloading" then some .downloading
  else if s = "completed" then some .completed
  else if s = "failed" then some .failed
  else if s = "cancelled" then some .cancelled
  else if s = "paused" then some .paused
  else none

/-- The `DownloadItem` dataclass, with the dataclass defaults. -/
structure DownloadItem where
  id : String
  url : String
  title : String := ""
  thumbnail_url : String := ""
  duration : Int := 0
  file_size : Int := 0
  format_type : String := "video"
  quality : String := "best"
  codec : String := "mp4"
  bitrate : Int := 320
  output_path : String := ""
  filename : String := ""
  status : DownloadStatus := .pending
  progress : Int := 0
  speed : Rat := 0
  eta : Int := 0
  created_at : String := ""
  completed_at : String := ""
  error_message : String := ""
  retry_count : Int := 0
  max_retries : Int := 3
deriving DecidableEq, Repr

/-- One row of the SQLite `downloads` table, in column order of the schema.
`save_download_item` writes the item's field values verbatim (status as its
value string), so the column types mirror the field types. -/
structure Row where
  r_id : String
  r_url : String
  r_title : String
  r_thumbnail_url : String
  r_duration : Int
  r_file_size : Int
  r_format_type : String
  r_quality : String
  r_codec : String
  r_bitrate : Int
  r_output_path : String
  r_filename : String
  r_status : String
  r_progress : Int
  r_speed : Rat
  r_eta : Int
  r_created_at : String
  r_completed_at : String
  r_error_message : String
  r_retry_count : Int
  r_max_retries : Int
deriving DecidableEq, Repr

/-- Python `v or d` for strings: `""` is falsy. -/
def pyOrS (v d : String) : String := if v = "" then d else v

/-- Python `v or d` for integers: `0` is falsy. -/
def pyOrI (v d : Int) : Int := if v = 0 then d else v

/-- Python `v or d` for floats: `0.0` is falsy. -/
def pyOrQ (v d : Rat) : Rat := if v = 0 then d else v

/-- The parameter tuple of the `INSERT OR REPLACE` statement of
`save_download_item`: each column holds the item's field value, the status
column holds `item.status.value`. -/
def item_to_row (item : DownloadItem) : Row :=
  { r_id := item.id, r_url := item.url, r_title := item.title,
    r_thumbnail_url := item.thumbnail_url, r_duration := item.duration,
    r_file_size := item.file_size, r_format_type := item.format_type,
    r_quality := item.quality, r_codec := item.codec,
    r_bitrate := item.bitrate, r_output_path := item.output_path,
    r_filename := item.filename, r_status := item.status.value,
    r_progress := item.progress, r_speed := item.speed, r_eta := item.eta,
    r_created_at := item.created_at, r_completed_at := item.completed_at,
    r_error_message := item.error_message, r_retry_count := item.retry_count,
    r_max_retries := item.max_retries }

/-- Model of `DownloadManager.row_to_download_item`: converts a database row back to a
`DownloadItem`, applying the Python `or` defaults of the source on each
column; an unknown status string raises `ValueError`, caught by the
`except` clause which returns a basic item carrying only id, url and a
`FAILED` status (the other fields keep the dataclass defaults). -/
def row_to_download_item (row : Row) : DownloadItem :=
  match statusOfValue row.r_status with
  | some st =>
    { id := row.r_id, url := row.r_url, title := pyOrS row.r_title "",
      thumbnail_url := pyOrS row.r_thumbnail_url "",
      duration := pyOrI row.r_duration 0, file_size := pyOrI row.r_file_size 0,
      format_type := pyOrS row.r_format_type "video",
      quality := pyOrS row.r_quality "best", codec := pyOrS row.r_codec "mp4",
      bitrate := pyOrI row.r_bitrate 320,
      output_path := pyOrS row.r_output_path "",
      filename := pyOrS row.r_filename "", status := st,
      progress := pyOrI row.r_progress 0, speed := pyOrQ row.r_speed 0,
      eta := pyOrI row.r_eta 0, created_at := pyOrS row.r_created_at "",
      completed_at := pyOrS row.r_completed_at "",
      error_message := pyOrS row.r_error_message "",
      retry_count := pyOrI row.r_retry_count 0,
      max_retries := pyOrI row.r_max_retries 3 }
  | none => { id := row.r_id, url := row.r_url, status := .failed }

/-- Model of `DownloadManager.save_download_item`: `INSERT OR REPLACE` keyed by the
primary key `id` — replaces the existing row of that id, else appends. -/
def save_download_item (store : List Row) (item : DownloadItem) : List Row :=
  if store.any (fun r => r.r_id = item.id) then
    store.map (fun r => if r.r_id = item.id then item_to_row item else r)
  else store ++ [item_to_row item]

/-- Query `SELECT * FROM downloads WHERE id = ?` with `fetchone()`. -/
def store_get (store : List Row) (id : String) : Option Row :=
  store.find? (fun r => r.r_id = id)

/-! ## URL validation (`MediaExtractor.is_valid_url`)

`urllib.parse.urlparse` splits off a scheme when the text before the first
`:` is a valid scheme token (an ASCII letter followed by letters, digits,
`+`, `-`, `.`), and a netloc when the remainder starts with `//` (the
netloc extends to the next `/`, `?` or `#`). -/

/-- Characters allowed in a URL scheme after the leading letter. -/
def scheme_char (c : Char) : Bool :=
  c.isAlpha || c.isDigit || c = '+' || c = '-' || c = '.'

/-- Splits `url` into `(scheme, rest)` as `urllib.parse` does; the scheme is
empty when there is no `:`, the `:` is first, the first character is not an
ASCII letter, or a character before the `:` is not a scheme character. -/
def split_scheme (url : String) : String × String :=
  let cs := url.toList
  match cs.findIdx? (· = ':') with
  | some i =>
    if 0 < i ∧ (cs.headD ' ').isAlpha ∧ (cs.take i).all scheme_char then
      (String.mk ((cs.take i).map Char.toLower), String.mk (cs.drop (i + 1)))
    else ("", url)
  | none => ("", url)

/-- The netloc of the post-scheme remainder: present only after `//`,
extending to the next `/`, `?` or `#`. -/
def url_netloc (rest : String) : String :=
  let cs := rest.toList
  if cs.take 2 = ['/', '/'] then
    String.mk ((cs.drop 2).takeWhile (fun c => c ≠ '/' ∧ c ≠ '?' ∧ c ≠ '#'))
  else ""

/-- Model of `MediaExtractor.is_valid_url`: `all([result.scheme, result.netloc])` —
both the scheme and the netloc must be non-empty. -/
def is_valid_url (url : String) : Bool :=
  let (scheme, rest) := split_scheme url
  scheme ≠ "" && url_netloc rest ≠ ""

/-! ## MD5 (for `add_download`'s id generation)

`add_download` derives the record id from
`hashlib.md5(f"{url}{time.time()}".encode()).hexdigest()[:12]`. The MD5
digest (RFC 1321) is computed here over the UTF-8 bytes, on `Nat` with
explicit reduction modulo `2^32`. -/

/-- The word modulus of MD5, `2^32`. -/
def m32 : Nat := 4294967296

/-- Left rotation of a 32-bit word. -/
def rotl32 (x n : Nat) : Nat := ((x <<< n) ||| (x >>> (32 - n))) % m32

/-- The MD5 sine-derived constant table `K`. -/
def md5K : List Nat :=
  [3614090360, 3905402710, 606105819, 3250441966, 4118548399, 1200080426,
   2821735955, 4249261313, 1770035416, 2336552879, 4294925233, 2304563134,
   1804603682, 4254626195, 2792965006, 1236535329, 4129170786, 3225465664,
   643717713, 3921069994, 3593408605, 38016083, 3634488961, 3889429448,
   568446438, 3275163606, 4107603335, 1163531501, 2850285829, 4243563512,
   1735328473, 2368359562, 4294588738, 2272392833, 1839030562, 4259657740,
   2763975236, 1272893353, 4139469664, 3200236656, 681279174, 3936430074,
   3572445317, 76029189, 3654602809, 3873151461, 530742520, 3299628645,
   4096336452, 1126891415, 2878612391, 4237533241, 1700485571, 2399980690,
   4293915773, 2240044497, 1873313359, 4264355552, 2734768916, 1309151649,
   4149444226, 3174756917, 718787259, 3951481745]

/-- The MD5 per-round shift table `s`. -/
def md5s : List Nat :=
  [7, 12, 17, 22, 7, 12, 17, 22, 7, 12, 17, 22, 7, 12, 17, 22,
   5, 9, 14, 20, 5, 9, 14, 20, 5, 9, 14, 20, 5, 9, 14, 20,
   4, 11, 16, 23, 4, 11, 16, 23, 4, 11, 16, 23, 4, 11, 16, 23,
   6, 10, 15, 21, 6, 10, 15, 21, 6, 10, 15, 21, 6, 10, 15, 21]

/-- One MD5 round on the running state `(A, B, C, D)`; `M` gives the 16
little-endian message words of the current chunk. -/
def md5round (M : Nat → Nat) (st : Nat × Nat × Nat × Nat) (i : Nat) :
    Nat × Nat × Nat × Nat :=
  let (A, B, C, D) := st
  let fg : Nat × Nat :=
    if i < 16 then ((B &&& C) ||| ((4294967295 - B) &&& D), i)
    else if i < 32 then ((D &&& B) ||| ((4294967295 - D) &&& C), (5 * i + 1) % 16)
    else if i < 48 then (B ^^^ C ^^^ D, (3 * i + 5) % 16)
    else (C ^^^ (B ||| (4294967295 - D)), (7 * i) % 16)
  let tmp := (A + fg.1 + md5K.getD i 0 + M fg.2) % m32
  (D, (B + rotl32 tmp (md5s.getD i 0)) % m32, B, C)

/-- The `n` little-endian bytes of `x`. -/
def lebytes (n x : Nat) : List Nat :=
  (List.range n).map (fun i => (x >>> (8 * i)) % 256)

/-- The `j`-th little-endian 32-bit word of a 64-byte chunk. -/
def chunkWord (chunk : List Nat) (j : Nat) : Nat :=
  chunk.getD (4 * j) 0 + 256 * chunk.getD (4 * j + 1) 0 +
    65536 * chunk.getD (4 * j + 2) 0 + 16777216 * chunk.getD (4 * j + 3) 0

/-- Processes the padded message (whose length is a multiple of 64)
64-byte chunk by 64-byte chunk from the RFC 1321 initial state. -/
def md5chunks (padded : List Nat) : Nat × Nat × Nat × Nat :=
  (List.range (padded.length / 64)).foldl
    (fun st k =>
      let chunk := (padded.drop (64 * k)).take 64
      let st' := (List.range 64).foldl (md5round (chunkWord chunk)) st
      ((st.1 + st'.1) % m32, (st.2.1 + st'.2.1) % m32,
       (st.2.2.1 + st'.2.2.1) % m32, (st.2.2.2 + st'.2.2.2) % m32))
    (1732584193, 4023233417, 2562383102, 271733878)

/-- MD5 padding: a `0x80` byte, zeros to 56 mod 64, then the bit length as
eight little-endian bytes. -/
def md5pad (msg : List Nat) : List Nat :=
  msg ++ [128] ++ List.replicate ((120 - ((msg.length + 1) % 64)) % 64) 0 ++
    lebytes 8 ((msg.length * 8) % 2 ^ 64)

/-- Lowercase hex digit. -/
def hexDigit (n : Nat) : Char :=
  if n < 10 then Char.ofNat (48 + n) else Char.ofNat (87 + n)

/-- Two lowercase hex characters of a byte. -/
def byteHex (b : Nat) : List Char := [hexDigit (b / 16), hexDigit (b % 16)]

/-- Model of `hashlib.md5(bytes).hexdigest()`. -/
def md5hex (msg : List Nat) : String :=
  let st := md5chunks (md5pad msg)
  String.mk
    (((lebytes 4 st.1 ++ lebytes 4 st.2.1 ++ lebytes 4 st.2.2.1 ++
       lebytes 4 st.2.2.2).map byteHex).flatten)

/-- UTF-8 bytes of one character. -/
def utf8Char (c : Char) : List Nat :=
  let n := c.toNat
  if n < 128 then [n]
  else if n < 2048 then [192 + n / 64, 128 + n % 64]
  else if n < 65536 then [224 + n / 4096, 128 + n / 64 % 64, 128 + n % 64]
  else [240 + n / 262144, 128 + n / 4096 % 64, 128 + n / 64 % 64, 128 + n % 64]

/-- Model of `str.encode()`: UTF-8 bytes of a string. -/
def utf8encode (s : String) : List Nat := (s.toList.map utf8Char).flatten

/-- Python string slicing `s[:n]`: the first `n` characters. -/
def strTake (s : String) (n : Nat) : String := String.mk (s.toList.take n)

/-- The id generation of `add_download`:
`hashlib.md5(f"{url}{time.time()}".encode()).hexdigest()[:12]`. The clock
reading is passed as the string the f-string interpolation produces. -/
def gen_download_id (url now_str : String) : String :=
  strTake (md5hex (utf8encode (url ++ now_str))) 12

/-! ## Transfer Worker: `AdvancedDownloadWorker.run`

`run` emits `status_changed("preparing")`, creates the output directory,
builds the yt-dlp options, emits `status_changed("downloading")` and runs
the engine. On success (cancellation flags never being set in the traces
considered here) it sets the item's filename from the finished progress
hook, emits the final 100% progress update and `download_completed`. On an
exception it emits `error_occurred` with `str(e)` unmodified and, while
`retry_count < max_retries`, increments `retry_count`, sleeps and calls
`run()` again. The external engine is a function from the attempt index to
either an error message or the finished file name. -/

/-- The Qt signals of `AdvancedDownloadWorker`. -/
inductive WorkerEvent where
  | statusChanged (id status : String)
  | progressUpdated (id : String) (progress : Int) (speed : Rat) (eta : Int)
  | downloadCompleted (id file_path : String)
  | errorOccurred (id error_message : String)
deriving DecidableEq, Repr

/-- Result of one `run()` call: the final (mutated) item, the emitted
events, and the number of engine invocations (download attempts) made. -/
structure RunResult where
  item : DownloadItem
  events : List WorkerEvent
  attempts : Nat
deriving DecidableEq, Repr

/-- Model of `AdvancedDownloadWorker.run`, starting at engine attempt index
`attempt`. -/
def runFrom (engine : Nat → Except String String) (item : DownloadItem)
    (attempt : Nat) : RunResult :=
  let ev0 := [WorkerEvent.statusChanged item.id "preparing",
              WorkerEvent.statusChanged item.id "downloading"]
  match engine attempt with
  | .ok fn =>
    { item := { item with filename := fn },
      events := ev0 ++ [.progressUpdated item.id 100 0 0,
                        .downloadCompleted item.id fn],
      attempts := 1 }
  | .error msg =>
    if h : item.retry_count < item.max_retries then
      let res := runFrom engine
        { item with retry_count := item.retry_count + 1 } (attempt + 1)
      { item := res.item,
        events := ev0 ++ [.errorOccurred item.id msg] ++ res.events,
        attempts := res.attempts + 1 }
    else
      { item := item, events := ev0 ++ [.errorOccurred item.id msg],
        attempts := 1 }
termination_by (item.max_retries - item.retry_count).toNat
decreasing_by simp; omega

/-- An engine whose every attempt fails, with message `errMsg k` on the
`k`-th attempt. -/
def alwaysFail (errMsg : Nat → String) : Nat → Except String String :=
  fun k => .error (errMsg k)

/-- The error messages carried by the `error_occurred` events of a run. -/
def errorsOf (evs : List WorkerEvent) : List String :=
  evs.filterMap (fun e => match e with
    | .errorOccurred _ m => some m
    | _ => none)

/-! ## Queue Manager: `DownloadManager` -/

/-- Observable events of the manager: its four Qt signals, plus the raw
`status_changed` signal a worker emits (delivered to `on_status_changed`). -/
inductive MgrEvent where
  | download_added (item : DownloadItem)
  | download_updated (item : DownloadItem)
  | completed_emitted (item : DownloadItem)
  | download_failed (item : DownloadItem)
  | worker_status (id status : String)
deriving DecidableEq, Repr

/-- The flags of one `AdvancedDownloadWorker` object, plus whether its
thread is still executing `run` (`executing`). -/
structure WorkerState where
  w_id : String
  is_paused : Bool
  pause_event_set : Bool
  is_cancelled : Bool
  executing : Bool
deriving DecidableEq, Repr

/-- The mutable state of a `DownloadManager`. `active_downloads` holds the
keys of the worker dict; `workers` holds every worker thread created, with
its liveness flag. -/
structure ManagerState where
  store : List Row
  download_queue : List DownloadItem
  active_downloads : List String
  workers : List WorkerState
  max_concurrent : Nat
deriving DecidableEq, Repr

/-- Mutation of the (aliased) queue entry of a given id: in Python the
worker and the queue hold the same `DownloadItem` object, so assigning its
fields updates the queue entry in place. -/
def update_queue (q : List DownloadItem) (item : DownloadItem) :
    List DownloadItem :=
  q.map (fun i => if i.id = item.id then item else i)

/-- Model of `DownloadManager.get_download_item`: the queue first, then the
database. -/
def get_download_item (st : ManagerState) (id : String) :
    Option DownloadItem :=
  match st.download_queue.find? (fun i => i.id = id) with
  | some item => some item
  | none => (store_get st.store id).map row_to_download_item

/-- Model of `DownloadManager.add_download`. `now_time` is the interpolated
`time.time()` reading, `now_iso` the `datetime.now().isoformat()` string
and `home_downloads` the value of `str(Path.home() / "Downloads")`. -/
def add_download (st : ManagerState)
    (url format_type quality output_path : String)
    (now_time now_iso home_downloads : String) :
    ManagerState × String × List MgrEvent :=
  let download_id := gen_download_id url now_time
  let item : DownloadItem :=
    { id := download_id, url := url, format_type := format_type,
      quality := quality, output_path := pyOrS output_path home_downloads,
      created_at := now_iso, status := .pending }
  ({ st with download_queue := st.download_queue ++ [item],
             store := save_download_item st.store item },
   download_id, [.download_added item])

/-- Model of `DownloadManager.start_download`: a no-op when the id already has a
worker, else it creates a worker (initially not paused, pause event set,
not cancelled), records it in `active_downloads`, sets the item's status to
`DOWNLOADING`, saves it and starts the thread. The `except` branch cannot
fire here (worker construction does not raise in the model). -/
def start_download (st : ManagerState) (item : DownloadItem) : ManagerState :=
  if st.active_downloads.contains item.id then st
  else
    let worker : WorkerState :=
      { w_id := item.id, is_paused := false, pause_event_set := true,
        is_cancelled := false, executing := true }
    let item' := { item with status := DownloadStatus.downloading }
    { st with
      active_downloads := st.active_downloads ++ [item.id],
      download_queue := update_queue st.download_queue item',
      store := save_download_item st.store item',
      workers := st.workers ++ [worker] }

/-- Model of `DownloadManager.process_queue` (the 1-second tick): returns when
`len(active_downloads) >= max_concurrent`, else starts a worker for each of
the first `max_concurrent - active_count` pending queue entries. -/
def process_queue (st : ManagerState) : ManagerState :=
  let active_count := st.active_downloads.length
  if st.max_concurrent ≤ active_count then st
  else
    let pending :=
      st.download_queue.filter (fun i => i.status = DownloadStatus.pending)
    (pending.take (st.max_concurrent - active_count)).foldl start_download st

/-- Model of `DownloadManager.on_status_changed`: looks the item up, sets its status
to `DownloadStatus(status)` (an unknown value string is swallowed), saves
and emits `download_updated`. -/
def on_status_changed (st : ManagerState) (id status : String) :
    ManagerState × List MgrEvent :=
  match get_download_item st id with
  | none => (st, [])
  | some item =>
    match statusOfValue status with
    | some s =>
      let item' := { item with status := s }
      ({ st with download_queue := update_queue st.download_queue item',
                 store := save_download_item st.store item' },
       [.download_updated item'])
    | none => (st, [])

/-- Model of `DownloadManager.on_download_error`: marks the item `FAILED` with the
error message, saves, emits `download_failed` and removes the id from
`active_downloads` (the item stays in the queue). -/
def on_download_error (st : ManagerState) (id error_message : String) :
    ManagerState × List MgrEvent :=
  match get_download_item st id with
  | none => (st, [])
  | some item =>
    let item' := { item with status := DownloadStatus.failed,
                             error_message := error_message }
    ({ st with download_queue := update_queue st.download_queue item',
               store := save_download_item st.store item',
               active_downloads := st.active_downloads.filter (fun x => x ≠ id) },
     [.download_failed item'])

/-- Marks a worker's thread as no longer executing. -/
def set_worker_finished (ws : List WorkerState) (id : String) :
    List WorkerState :=
  ws.map (fun w => if w.w_id = id then { w with executing := false } else w)

/-- Whether some worker thread for this id is still executing. -/
def worker_executing (st : ManagerState) (id : String) : Bool :=
  st.workers.any (fun w => w.w_id = id ∧ w.executing = true)

/-- One failed download attempt of an executing worker, as observed by the
manager: `run` emits `error_occurred`, whose queued delivery runs
`on_download_error`; the worker thread then retries — remaining executing —
exactly when its item's `retry_count < max_retries` (incrementing the
shared item's `retry_count` as `run` recurses), and otherwise its `run`
returns and the thread finishes. -/
def worker_attempt_fails (st : ManagerState) (id error_message : String) :
    ManagerState × List MgrEvent :=
  if worker_executing st id then
    let p := on_download_error st id error_message
    let st1 := p.1
    match get_download_item st1 id with
    | some item =>
      if item.retry_count < item.max_retries then
        let item' := { item with retry_count := item.retry_count + 1 }
        ({ st1 with download_queue := update_queue st1.download_queue item' },
         p.2)
      else ({ st1 with workers := set_worker_finished st1.workers id }, p.2)
    | none => ({ st1 with workers := set_worker_finished st1.workers id }, p.2)
  else (st, [])

/-- Model of `DownloadManager.get_active_downloads`: the queue entries whose status
is `DOWNLOADING` or `PAUSED`. -/
def get_active_downloads (st : ManagerState) : List DownloadItem :=
  st.download_queue.filter
    (fun i => i.status = DownloadStatus.downloading ∨
              i.status = DownloadStatus.paused)

/-- The number of worker threads currently executing. -/
def executing_count (st : ManagerState) : Nat :=
  (st.workers.filter (fun w => w.executing)).length

/-- The queue built by `DownloadManager.load_settings`: the rows whose
status is `pending`, `downloading` or `paused`, converted, with
`downloading` reset to `pending`, appended in order. -/
def load_settings_queue (store : List Row) : List DownloadItem :=
  (store.filter (fun r =>
      r.r_status = DownloadStatus.pending.value ∨
      r.r_status = DownloadStatus.downloading.value ∨
      r.r_status = DownloadStatus.paused.value)).map
    (fun row =>
      let item := row_to_download_item row
      if item.status = DownloadStatus.downloading then
        { item with status := DownloadStatus.pending }
      else item)

/-- A freshly initialized `DownloadManager` over the given store contents:
the queue comes from `load_settings`, no worker exists yet, and
`max_concurrent` comes from settings (default 3). -/
def init_manager (store : List Row) (max_concurrent : Nat) : ManagerState :=
  { store := store, download_queue := load_settings_queue store,
    active_downloads := [], workers := [], max_concurrent := max_concurrent }

/-- The flag assignments of `AdvancedDownloadWorker.pause` applied to the
worker of the given id. -/
def worker_pause_flags (ws : List WorkerState) (id : String) :
    List WorkerState :=
  ws.map (fun w =>
    if w.w_id = id then { w with is_paused := true, pause_event_set := false }
    else w)

/-- The flag assignments of `AdvancedDownloadWorker.resume`. -/
def worker_resume_flags (ws : List WorkerState) (id : String) :
    List WorkerState :=
  ws.map (fun w =>
    if w.w_id = id then { w with is_paused := false, pause_event_set := true }
    else w)

/-- Model of `DownloadManager.pause_download`. When the id has a worker:
`worker.pause()` sets the pause flags and emits
`status_changed(id, "paused")` — a signal emitted on the manager's own
thread, hence delivered directly, running `on_status_changed` before
`pause_download` continues — then the handler looks the item up, sets
`PAUSED` and saves. When the id has no worker, nothing at all happens. -/
def pause_download (st : ManagerState) (id : String) :
    ManagerState × List MgrEvent :=
  if st.active_downloads.contains id then
    let st0 := { st with workers := worker_pause_flags st.workers id }
    let p := on_status_changed st0 id "paused"
    let evs := MgrEvent.worker_status id "paused" :: p.2
    match get_download_item p.1 id with
    | some item =>
      let item' := { item with status := DownloadStatus.paused }
      ({ p.1 with download_queue := update_queue p.1.download_queue item',
                  store := save_download_item p.1.store item' }, evs)
    | none => (p.1, evs)
  else (st, [])

/-- Model of `DownloadManager.resume_download`, mirroring `pause_download` with
`worker.resume()` and the `DOWNLOADING` status. -/
def resume_download (st : ManagerState) (id : String) :
    ManagerState × List MgrEvent :=
  if st.active_downloads.contains id then
    let st0 := { st with workers := worker_resume_flags st.workers id }
    let p := on_status_changed st0 id "downloading"
    let evs := MgrEvent.worker_status id "downloading" :: p.2
    match get_download_item p.1 id with
    | some item =>
      let item' := { item with status := DownloadStatus.downloading }
      ({ p.1 with download_queue := update_queue p.1.download_queue item',
                  store := save_download_item p.1.store item' }, evs)
    | none => (p.1, evs)
  else (st, [])

/-! ## A concrete trace for the concurrency-limit analysis

Four downloads are added (distinct urls, so distinct ids), a tick starts
three workers, one worker fails an attempt with retries remaining — the
manager drops it from `active_downloads` while its thread keeps executing —
and the next tick starts a fourth worker. -/

/-- The fresh manager of the trace: empty store, limit 3. -/
def c1s0 : ManagerState := init_manager [] 3

/-- The trace state after the first `add_download`. -/
def c1s1 : ManagerState :=
  (add_download c1s0 "u1" "video" "best" "/o" "1.5" "T" "H").1

/-- The trace state after the second `add_download`. -/
def c1s2 : ManagerState :=
  (add_download c1s1 "u2" "video" "best" "/o" "1.5" "T" "H").1

/-- The trace state after the third `add_download`. -/
def c1s3 : ManagerState :=
  (add_download c1s2 "u3" "video" "best" "/o" "1.5" "T" "H").1

/-- The trace state after the fourth `add_download`. -/
def c1s4 : ManagerState :=
  (add_download c1s3 "u4" "video" "best" "/o" "1.5" "T" "H").1

/-- The trace state after the first tick: three workers started. -/
def c1s5 : ManagerState := process_queue c1s4

/-- The id of the first download of the trace. -/
def c1id1 : String := gen_download_id "u1" "1.5"

/-- The trace state after the first worker fails one attempt (retries
remaining, so its thread keeps executing and will retry). -/
def c1s6 : ManagerState := (worker_attempt_fails c1s5 c1id1 "boom").1

/-- The trace state after the next tick, which starts a fourth worker. -/
def c1s7 : ManagerState := process_queue c1s6

/-! ## Auxiliary lemmas -/

theorem item_to_row_id (it : DownloadItem) : (item_to_row it).r_id = it.id := rfl

theorem statusOfValue_value (s : DownloadStatus) : statusOfValue s.value = some s := by
  cases s <;> rfl

theorem pyOrS_empty (v : String) : pyOrS v "" = v := by
  unfold pyOrS; split <;> simp_all

theorem pyOrI_zero (v : Int) : pyOrI v 0 = v := by
  unfold pyOrI; split <;> simp_all

theorem pyOrQ_zero (v : Rat) : pyOrQ v 0 = v := by
  unfold pyOrQ; split <;> simp_all

theorem store_get_save (s : List Row) (it : DownloadItem) :
    store_get (save_download_item s it) it.id = some (item_to_row it) := by
  unfold store_get save_download_item
  by_cases ha : s.any (fun r => r.r_id = it.id) = true
  · rw [if_pos ha]
    have hpf : ((fun r : Row => decide (r.r_id = it.id)) ∘
        (fun r => if r.r_id = it.id then item_to_row it else r)) =
        (fun r : Row => decide (r.r_id = it.id)) := by
      funext r
      by_cases h : r.r_id = it.id <;> simp [Function.comp, h, item_to_row]
    rw [List.find?_map, hpf]
    rcases List.any_eq_true.mp ha with ⟨r0, hm, hp⟩
    obtain ⟨r1, h1⟩ := Option.isSome_iff_exists.mp
      (show (s.find? (fun r => decide (r.r_id = it.id))).isSome from
        List.find?_isSome.mpr ⟨r0, hm, hp⟩)
    rw [h1]
    have h2 := List.find?_some h1
    simp only [decide_eq_true_eq] at h2
    simp [h2]
  · rw [if_neg ha, List.find?_append]
    simp only [Bool.not_eq_true] at ha
    have hnone : s.find? (fun r => r.r_id = it.id) = none :=
      List.find?_eq_none.mpr (fun x hx => by
        have := List.any_eq_false.mp ha x hx
        simpa using this)
    rw [hnone]
    simp [item_to_row]

theorem store_get_save_other (s : List Row) (it : DownloadItem) (x : String)
    (hx : ¬ x = it.id) :
    store_get (save_download_item s it) x = store_get s x := by
  have hx' : ¬ it.id = x := fun hh => hx hh.symm
  unfold store_get save_download_item
  by_cases ha : s.any (fun r => r.r_id = it.id) = true
  · rw [if_pos ha]
    have hpf : ((fun r : Row => decide (r.r_id = x)) ∘
        (fun r => if r.r_id = it.id then item_to_row it else r)) =
        (fun r : Row => decide (r.r_id = x)) := by
      funext r
      by_cases h : r.r_id = it.id <;> simp [Function.comp, h, item_to_row, hx']
    rw [List.find?_map, hpf]
    cases hf : s.find? (fun r => decide (r.r_id = x)) with
    | none => simp
    | some r1 =>
      have h1 := List.find?_some hf
      simp only [decide_eq_true_eq] at h1
      have h2 : ¬ r1.r_id = it.id := by rw [h1]; exact hx
      simp [h2]
  · rw [if_neg ha, List.find?_append]
    have hone : List.find? (fun r => decide (r.r_id = x)) [item_to_row it] = none := by
      simp [item_to_row, hx']
    rw [hone]
    simp

/-! ## C10 -/

/-- C10: pause_download and resume_download on an id with no active worker
change nothing and emit no event. -/
theorem pause_resume_inactive_noop (st : ManagerState) (id : String)
    (h : st.active_downloads.contains id = false) :
    pause_download st id = (st, []) ∧ resume_download st id = (st, []) := by
  have h2 : ¬ id ∈ st.active_downloads := by simpa using h
  unfold pause_download resume_download
  simp [h2]

theorem pause_resume_inactive_noop_witness :
    pause_download (init_manager [] 3) "x" = (init_manager [] 3, []) ∧
    resume_download (init_manager [] 3) "x" = (init_manager [] 3, []) :=
  pause_resume_inactive_noop (init_manager [] 3) "x" (by decide)

/-! ## C5 -/

theorem row_to_download_item_status (row : Row) (s : DownloadStatus)
    (h : row.r_status = s.value) : (row_to_download_item row).status = s := by
  unfold row_to_download_item
  rw [h, statusOfValue_value]

/-- C5: a stored row with status downloading appears in the load_settings
queue as its converted record reset to pending, and no queue entry has
status downloading after initialization. -/
theorem downloading_rows_reset_to_pending (store : List Row) (row : Row)
    (hmem : row ∈ store) (hst : row.r_status = "downloading") :
    { row_to_download_item row with status := DownloadStatus.pending } ∈
      load_settings_queue store ∧
    ∀ item ∈ load_settings_queue store,
      item.status ≠ DownloadStatus.downloading := by
  constructor
  · unfold load_settings_queue
    refine List.mem_map.mpr ⟨row, List.mem_filter.mpr ⟨hmem, ?_⟩, ?_⟩
    · simp [hst, DownloadStatus.value]
    · have hs : (row_to_download_item row).status = DownloadStatus.downloading :=
        row_to_download_item_status row DownloadStatus.downloading hst
      simp [hs]
  · intro item hitem
    unfold load_settings_queue at hitem
    rcases List.mem_map.mp hitem with ⟨r, hrmem, hconv⟩
    by_cases hd : (row_to_download_item r).status = DownloadStatus.downloading
    · rw [← hconv]; simp [hd]
    · rw [← hconv]; simp [hd]

theorem downloading_rows_reset_to_pending_witness :
    { row_to_download_item
        { r_id := "a", r_url := "u", r_title := "", r_thumbnail_url := "",
          r_duration := 0, r_file_size := 0, r_format_type := "video",
          r_quality := "best", r_codec := "mp4", r_bitrate := 320,
          r_output_path := "", r_filename := "", r_status := "downloading",
          r_progress := 0, r_speed := 0, r_eta := 0, r_created_at := "",
          r_completed_at := "", r_error_message := "", r_retry_count := 0,
          r_max_retries := 3 } with status := DownloadStatus.pending } ∈
      load_settings_queue
        [{ r_id := "a", r_url := "u", r_title := "", r_thumbnail_url := "",
           r_duration := 0, r_file_size := 0, r_format_type := "video",
           r_quality := "best", r_codec := "mp4", r_bitrate := 320,
           r_output_path := "", r_filename := "", r_status := "downloading",
           r_progress := 0, r_speed := 0, r_eta := 0, r_created_at := "",
           r_completed_at := "", r_error_message := "", r_retry_count := 0,
           r_max_retries := 3 }] :=
  (downloading_rows_reset_to_pending _ _ (by decide) (by decide)).1

/-! ## C2 -/

theorem runFrom_retry_le (engine : Nat → Except String String) :
    ∀ (n : Nat) (item : DownloadItem) (a : Nat),
      (item.max_retries - item.retry_count).toNat = n →
      item.retry_count ≤ item.max_retries →
      (runFrom engine item a).item.retry_count ≤ item.max_retries := by
  intro n
  induction n with
  | zero =>
    intro item a hn hle
    rw [runFrom]
    cases h : engine a with
    | ok fn => simpa using hle
    | error msg =>
      have hne : ¬ item.retry_count < item.max_retries := by omega
      simpa [hne] using hle
  | succ n ih =>
    intro item a hn hle
    rw [runFrom]
    cases h : engine a with
    | ok fn => simpa using hle
    | error msg =>
      by_cases hlt : item.retry_count < item.max_retries
      · simp only [hlt, dif_pos]
        have := ih { item with retry_count := item.retry_count + 1 } (a + 1)
          (by simp; omega) (by simp; omega)
        simpa using this
      · simpa [hlt] using hle

/-- C2: an always-failing item with max_retries = 3 makes exactly 4
attempts and ends with retry_count = 3; for every engine, retry_count
never exceeds max_retries. -/
theorem retry_bounded_four_attempts (errMsg : Nat → String)
    (item : DownloadItem) (h0 : item.retry_count = 0)
    (h3 : item.max_retries = 3) :
    ((runFrom (alwaysFail errMsg) item 0).attempts = 4 ∧
     (runFrom (alwaysFail errMsg) item 0).item.retry_count = 3) ∧
    ∀ (engine : Nat → Except String String) (it : DownloadItem) (a : Nat),
      it.retry_count ≤ it.max_retries →
      (runFrom engine it a).item.retry_count ≤ it.max_retries := by
  refine ⟨⟨?_, ?_⟩, ?_⟩
  · simp [runFrom, alwaysFail, h0, h3]
  · simp [runFrom, alwaysFail, h0, h3]
  · intro engine it a hle
    exact runFrom_retry_le engine ((it.max_retries - it.retry_count).toNat)
      it a rfl hle

theorem retry_bounded_four_attempts_witness :
    (runFrom (alwaysFail (fun _ => "err")) { id := "x", url := "u" } 0).attempts = 4 ∧
    (runFrom (alwaysFail (fun _ => "err")) { id := "x", url := "u" } 0).item.retry_count = 3 ∧
    (runFrom (fun _ => Except.ok "f") { id := "x", url := "u" } 0).item.retry_count ≤ 3 := by
  have h := retry_bounded_four_attempts (fun _ => "err") { id := "x", url := "u" } rfl rfl
  exact ⟨h.1.1, h.1.2, h.2 (fun _ => Except.ok "f") { id := "x", url := "u" } 0 (by decide)⟩

/-! ## C4 -/

/-- C4 counterexample: the error event is emitted for the very first failed
attempt, which is then retried and succeeds — not only at exhaustion. -/
theorem error_event_before_exhaustion_counterexample :
    (runFrom (fun k => if k = 0 then Except.error "boom" else Except.ok "f.mp4")
        { id := "x", url := "u" } 0).events =
      [WorkerEvent.statusChanged "x" "preparing",
       WorkerEvent.statusChanged "x" "downloading",
       WorkerEvent.errorOccurred "x" "boom",
       WorkerEvent.statusChanged "x" "preparing",
       WorkerEvent.statusChanged "x" "downloading",
       WorkerEvent.progressUpdated "x" 100 0 0,
       WorkerEvent.downloadCompleted "x" "f.mp4"] := by
  simp [runFrom]

/-- C4 amended: the worker emits an error event on every failed attempt (4
of them for max_retries = 3), each carrying the message unmodified. -/
theorem error_event_every_failed_attempt (errMsg : Nat → String)
    (item : DownloadItem) (h0 : item.retry_count = 0)
    (h3 : item.max_retries = 3) :
    errorsOf (runFrom (alwaysFail errMsg) item 0).events =
      [errMsg 0, errMsg 1, errMsg 2, errMsg 3] := by
  simp [runFrom, alwaysFail, h0, h3, errorsOf]

theorem error_event_every_failed_attempt_witness :
    errorsOf (runFrom (alwaysFail (fun _ => "E")) { id := "x", url := "u" } 0).events =
      ["E", "E", "E", "E"] :=
  error_event_every_failed_attempt (fun _ => "E") { id := "x", url := "u" } rfl rfl

/-! ## C3 -/

set_option maxRecDepth 1000000 in
/-- C3 counterexample: "not-a-url" has neither scheme nor netloc, yet
add_download enqueues it and persists a row for it. -/
theorem malformed_url_persisted_counterexample :
    is_valid_url "not-a-url" = false ∧
    ((add_download (init_manager [] 3) "not-a-url" "video" "best" ""
        "1.5" "T" "H").1.store.map Row.r_url) = ["not-a-url"] ∧
    ((add_download (init_manager [] 3) "not-a-url" "video" "best" ""
        "1.5" "T" "H").1.download_queue.map DownloadItem.url) = ["not-a-url"] := by
  refine ⟨rfl, rfl, rfl⟩

/-- C3 amended: add_download performs no URL validation — every url,
malformed ones included, is enqueued and persisted. -/
theorem add_download_accepts_any_url (st : ManagerState)
    (url ft q op nt ni hd : String) (hmal : is_valid_url url = false) :
    ((add_download st url ft q op nt ni hd).1.download_queue.map DownloadItem.url)
      = st.download_queue.map DownloadItem.url ++ [url] ∧
    ∃ row, store_get (add_download st url ft q op nt ni hd).1.store
        (add_download st url ft q op nt ni hd).2.1 = some row ∧
      row.r_url = url ∧ row.r_status = "pending" := by
  constructor
  · simp [add_download]
  · exact ⟨item_to_row
      { id := gen_download_id url nt, url := url, format_type := ft,
        quality := q, output_path := pyOrS op hd, created_at := ni,
        status := .pending },
      store_get_save st.store _, rfl, rfl⟩

theorem add_download_accepts_any_url_witness :
    ((add_download (init_manager [] 3) "no-scheme" "video" "best" "" "1.5"
        "T" "H").1.download_queue.map DownloadItem.url)
      = (init_manager [] 3).download_queue.map DownloadItem.url ++ ["no-scheme"] :=
  (add_download_accepts_any_url (init_manager [] 3) "no-scheme" "video"
    "best" "" "1.5" "T" "H" (by rfl)).1

/-! ## C7 -/

/-- C7 counterexample: a record with max_retries = 0 reloads with
max_retries = 3 — the round trip is not the identity. -/
theorem roundtrip_counterexample :
    (store_get (save_download_item []
        { id := "a", url := "u", max_retries := 0 }) "a").map
        row_to_download_item =
      some { id := "a", url := "u", max_retries := 3 } ∧
    ¬ (({ id := "a", url := "u", max_retries := 0 } : DownloadItem) =
       { id := "a", url := "u", max_retries := 3 }) := by
  exact ⟨by decide, by decide⟩

/-- C7 amended: the put/get round trip restores every field provided
format_type, quality and codec are nonempty and bitrate and max_retries
are nonzero (the reload replaces falsy values in those five columns by
defaults). -/
theorem roundtrip_restores_fields (r : DownloadItem) (s : List Row)
    (h1 : r.format_type ≠ "") (h2 : r.quality ≠ "") (h3 : r.codec ≠ "")
    (h4 : r.bitrate ≠ 0) (h5 : r.max_retries ≠ 0) :
    (store_get (save_download_item s r) r.id).map row_to_download_item =
      some r := by
  rw [store_get_save]
  obtain ⟨i, u, t, th, d, fs, ft, q, c, b, o, f, stt, p, sp, e, ca, co, em, rc, mr⟩ := r
  simp_all [row_to_download_item, item_to_row, statusOfValue_value,
    pyOrS, pyOrI, pyOrQ]

theorem roundtrip_restores_fields_witness :
    (store_get (save_download_item [] { id := "a", url := "u" }) "a").map
        row_to_download_item = some { id := "a", url := "u" } :=
  roundtrip_restores_fields { id := "a", url := "u" } [] (by decide)
    (by decide) (by decide) (by decide) (by decide)

/-! ## C9 -/

set_option maxRecDepth 1000000 in
/-- C9 counterexample: two add_download calls with the same url at the same
clock reading return the same id, and the second upserts over the first's
row — the store still holds a single row. -/
theorem duplicate_id_counterexample :
    (add_download (init_manager [] 3) "u" "video" "best" "" "1.5" "T" "H").2.1 =
      (add_download (add_download (init_manager [] 3) "u" "video" "best" ""
        "1.5" "T" "H").1 "u" "video" "best" "" "1.5" "T" "H").2.1 ∧
    (add_download (add_download (init_manager [] 3) "u" "video" "best" ""
        "1.5" "T" "H").1 "u" "video" "best" "" "1.5" "T" "H").1.store.length
      = 1 := by
  exact ⟨rfl, by decide⟩

/-- C9 amended: the id returned by add_download is the deterministic
truncated MD5 digest of url ++ clock string; two calls return distinct ids
exactly when those digests differ, and then both rows are in the store. -/
theorem ids_distinct_iff_digests_distinct (st : ManagerState)
    (u1 t1 u2 t2 ft q op ni hd : String)
    (hdig : gen_download_id u1 t1 ≠ gen_download_id u2 t2) :
    (add_download st u1 ft q op t1 ni hd).2.1 ≠
      (add_download (add_download st u1 ft q op t1 ni hd).1
        u2 ft q op t2 ni hd).2.1 ∧
    store_get (add_download (add_download st u1 ft q op t1 ni hd).1
        u2 ft q op t2 ni hd).1.store
      (add_download st u1 ft q op t1 ni hd).2.1 ≠ none ∧
    store_get (add_download (add_download st u1 ft q op t1 ni hd).1
        u2 ft q op t2 ni hd).1.store
      (add_download (add_download st u1 ft q op t1 ni hd).1
        u2 ft q op t2 ni hd).2.1 ≠ none := by
  refine ⟨hdig, ?_, ?_⟩
  · show store_get
      (save_download_item (save_download_item st.store
        { id := gen_download_id u1 t1, url := u1, format_type := ft,
          quality := q, output_path := pyOrS op hd, created_at := ni,
          status := .pending })
        { id := gen_download_id u2 t2, url := u2, format_type := ft,
          quality := q, output_path := pyOrS op hd, created_at := ni,
          status := .pending })
      (gen_download_id u1 t1) ≠ none
    rw [store_get_save_other _ _ _ hdig]
    rw [show gen_download_id u1 t1 =
      ({ id := gen_download_id u1 t1, url := u1, format_type := ft,
         quality := q, output_path := pyOrS op hd, created_at := ni,
         status := .pending } : DownloadItem).id from rfl, store_get_save]
    simp
  · show store_get
      (save_download_item (save_download_item st.store
        { id := gen_download_id u1 t1, url := u1, format_type := ft,
          quality := q, output_path := pyOrS op hd, created_at := ni,
          status := .pending })
        { id := gen_download_id u2 t2, url := u2, format_type := ft,
          quality := q, output_path := pyOrS op hd, created_at := ni,
          status := .pending })
      (gen_download_id u2 t2) ≠ none
    rw [show gen_download_id u2 t2 =
      ({ id := gen_download_id u2 t2, url := u2, format_type := ft,
         quality := q, output_path := pyOrS op hd, created_at := ni,
         status := .pending } : DownloadItem).id from rfl, store_get_save]
    simp

set_option maxRecDepth 1000000 in
theorem ids_distinct_iff_digests_distinct_witness :
    (add_download (init_manager [] 3) "u1" "video" "best" "" "1.5" "T" "H").2.1 ≠
      (add_download (add_download (init_manager [] 3) "u1" "video" "best" ""
        "1.5" "T" "H").1 "u2" "video" "best" "" "1.5" "T" "H").2.1 :=
  (ids_distinct_iff_digests_distinct (init_manager [] 3) "u1" "1.5" "u2"
    "1.5" "video" "best" "" "T" "H" (by decide)).1

/-! ## C6 -/

/-- C6 counterexample: immediately after add_download the record is in the
queue with status pending, but get_active_downloads returns the empty
list — it does not contain the new record. -/
theorem getactive_missing_pending_counterexample :
    ((add_download (init_manager [] 3) "https://example.com/v1" "video"
        "720p" "/tmp/out" "1700000000.123" "T" "H").1.download_queue.map
        (fun i => (i.id, i.status))) =
      [(gen_download_id "https://example.com/v1" "1700000000.123",
        DownloadStatus.pending)] ∧
    get_active_downloads (add_download (init_manager [] 3)
        "https://example.com/v1" "video" "720p" "/tmp/out" "1700000000.123"
        "T" "H").1 = [] := by
  exact ⟨rfl, rfl⟩

/-- C6 amended: after addDownload on a fresh manager the record is queued
as pending but not yet in get_active_downloads; after one process_queue
with max_concurrent = 3 and no active workers its status is downloading
and get_active_downloads lists exactly it. -/
theorem added_pending_then_tick_downloading (url ft q op nt ni hd : String) :
    (add_download (init_manager [] 3) url ft q op nt ni hd).1.download_queue =
      [{ id := gen_download_id url nt, url := url, format_type := ft,
         quality := q, output_path := pyOrS op hd, created_at := ni,
         status := .pending }] ∧
    (add_download (init_manager [] 3) url ft q op nt ni hd).2.1 =
      gen_download_id url nt ∧
    get_active_downloads
      (add_download (init_manager [] 3) url ft q op nt ni hd).1 = [] ∧
    (process_queue (add_download (init_manager [] 3) url ft q op nt
        ni hd).1).download_queue =
      [{ id := gen_download_id url nt, url := url, format_type := ft,
         quality := q, output_path := pyOrS op hd, created_at := ni,
         status := .downloading }] ∧
    get_active_downloads (process_queue (add_download (init_manager [] 3)
        url ft q op nt ni hd).1) =
      [{ id := gen_download_id url nt, url := url, format_type := ft,
         quality := q, output_path := pyOrS op hd, created_at := ni,
         status := .downloading }] := by
  refine ⟨rfl, rfl, rfl, ?_, ?_⟩
  · simp [process_queue, add_download, init_manager, load_settings_queue,
      start_download, update_queue, get_active_downloads]
  · simp [process_queue, add_download, init_manager, load_settings_queue,
      start_download, update_queue, get_active_downloads]

/-! ## C8 -/

theorem update_queue_idem (q : List DownloadItem) (it : DownloadItem) :
    update_queue (update_queue q it) it = update_queue q it := by
  unfold update_queue
  rw [List.map_map]
  apply List.map_congr_left
  intro i _
  by_cases h : i.id = it.id <;> simp [Function.comp, h]

theorem worker_pause_flags_idem (ws : List WorkerState) (id : String) :
    worker_pause_flags (worker_pause_flags ws id) id =
      worker_pause_flags ws id := by
  unfold worker_pause_flags
  rw [List.map_map]
  apply List.map_congr_left
  intro w _
  by_cases h : w.w_id = id <;> simp [Function.comp, h]

theorem save_download_item_idem (s : List Row) (it : DownloadItem) :
    save_download_item (save_download_item s it) it =
      save_download_item s it := by
  unfold save_download_item
  by_cases ha : s.any (fun r => r.r_id = it.id) = true
  · rw [if_pos ha]
    have ha2 : (s.map fun r => if r.r_id = it.id then item_to_row it else r).any
        (fun r => r.r_id = it.id) = true := by
      rw [List.any_map]
      rcases List.any_eq_true.mp ha with ⟨r0, hm, hp⟩
      simp only [decide_eq_true_eq] at hp
      exact List.any_eq_true.mpr ⟨r0, hm, by simp [Function.comp, hp, item_to_row]⟩
    rw [if_pos ha2, List.map_map]
    apply List.map_congr_left
    intro r _
    by_cases h : r.r_id = it.id <;> simp [Function.comp, h, item_to_row]
  · rw [if_neg ha]
    simp only [Bool.not_eq_true] at ha
    have ha2 : (s ++ [item_to_row it]).any (fun r => r.r_id = it.id) = true := by
      simp [item_to_row]
    rw [if_pos ha2, List.map_append]
    have h1 : s.map (fun r => if r.r_id = it.id then item_to_row it else r) = s := by
      have hall := List.any_eq_false.mp ha
      calc s.map (fun r => if r.r_id = it.id then item_to_row it else r)
          = s.map (fun r => r) := by
            apply List.map_congr_left
            intro r hm
            have := hall r hm
            simp only [decide_eq_true_eq] at this
            simp [this]
        _ = s := List.map_id' s
    rw [h1]
    simp [item_to_row]

theorem find?_update_queue (q : List DownloadItem) (id : String)
    (item it' : DownloadItem)
    (hf : q.find? (fun i => i.id = id) = some item) (hid : it'.id = id) :
    (update_queue q it').find? (fun i => i.id = id) = some it' := by
  unfold update_queue
  have hpf : ((fun i : DownloadItem => decide (i.id = id)) ∘
      (fun i => if i.id = it'.id then it' else i)) =
      (fun i : DownloadItem => decide (i.id = id)) := by
    funext i
    by_cases h : i.id = id <;> simp [Function.comp, hid, h]
  rw [List.find?_map, hpf, hf]
  have hitem := List.find?_some hf
  simp only [decide_eq_true_eq] at hitem
  simp [hitem, hid]

/-- Full characterization of one pause_download call on a state whose queue
holds the looked-up item. -/
theorem pause_download_eq (st : ManagerState) (id : String)
    (item : DownloadItem)
    (hact : st.active_downloads.contains id = true)
    (hfind : st.download_queue.find? (fun i => i.id = id) = some item) :
    pause_download st id =
      ({ st with workers := worker_pause_flags st.workers id,
                 download_queue := update_queue st.download_queue
                   { item with status := DownloadStatus.paused },
                 store := save_download_item st.store
                   { item with status := DownloadStatus.paused } },
       [MgrEvent.worker_status id "paused",
        MgrEvent.download_updated { item with status := DownloadStatus.paused }]) := by
  have hitem_id : item.id = id := by
    have := List.find?_some hfind
    simpa using this
  have hfind2 : (update_queue st.download_queue
      { item with status := DownloadStatus.paused }).find?
      (fun i => i.id = id) = some { item with status := DownloadStatus.paused } :=
    find?_update_queue st.download_queue id item _ hfind hitem_id
  have hpv : statusOfValue "paused" = some DownloadStatus.paused := rfl
  simp [pause_download, on_status_changed, get_download_item, hact, hfind,
    hpv, hfind2, update_queue_idem, save_download_item_idem]
  simpa using hact

/-- C8 amended: a second pause on an already-paused record returns exactly
the first call's state — a state no-op — but re-emits the same two events
(the worker's paused status signal and a download_updated), which are not
empty: duplicate events are emitted. -/
theorem pause_state_noop_duplicate_events (st : ManagerState) (id : String)
    (item : DownloadItem)
    (hact : st.active_downloads.contains id = true)
    (hfind : st.download_queue.find? (fun i => i.id = id) = some item) :
    pause_download (pause_download st id).1 id = pause_download st id ∧
    (pause_download st id).2 ≠ [] := by
  have hitem_id : item.id = id := by
    have := List.find?_some hfind
    simpa using this
  have e1 := pause_download_eq st id item hact hfind
  have hfind2 : (update_queue st.download_queue
      { item with status := DownloadStatus.paused }).find?
      (fun i => i.id = id) = some { item with status := DownloadStatus.paused } :=
    find?_update_queue st.download_queue id item _ hfind hitem_id
  constructor
  · rw [e1]
    have e2 := pause_download_eq
      { st with workers := worker_pause_flags st.workers id,
                download_queue := update_queue st.download_queue
                  { item with status := DownloadStatus.paused },
                store := save_download_item st.store
                  { item with status := DownloadStatus.paused } }
      id { item with status := DownloadStatus.paused } hact hfind2
    rw [e2]
    simp [worker_pause_flags_idem, update_queue_idem, save_download_item_idem]
  · rw [e1]
    simp

set_option maxRecDepth 1000000 in
/-- C8 counterexample: pausing an already-paused record emits events again
(the same two as the first call), contradicting the claimed absence of
duplicate events. -/
theorem pause_twice_counterexample :
    (pause_download (pause_download (process_queue (add_download
        (init_manager [] 3) "u" "video" "best" "/o" "1.5" "T" "H").1)
        (gen_download_id "u" "1.5")).1 (gen_download_id "u" "1.5")).2 =
      (pause_download (process_queue (add_download (init_manager [] 3) "u"
        "video" "best" "/o" "1.5" "T" "H").1) (gen_download_id "u" "1.5")).2 ∧
    (pause_download (process_queue (add_download (init_manager [] 3) "u"
        "video" "best" "/o" "1.5" "T" "H").1) (gen_download_id "u" "1.5")).2
      ≠ [] := by
  exact ⟨by decide, by decide⟩

set_option maxRecDepth 1000000 in
theorem pause_state_noop_duplicate_events_witness :
    pause_download (pause_download (process_queue (add_download
        (init_manager [] 3) "u" "video" "best" "/o" "1.5" "T" "H").1)
        (gen_download_id "u" "1.5")).1 (gen_download_id "u" "1.5") =
      pause_download (process_queue (add_download (init_manager [] 3) "u"
        "video" "best" "/o" "1.5" "T" "H").1) (gen_download_id "u" "1.5") ∧
    (pause_download (process_queue (add_download (init_manager [] 3) "u"
        "video" "best" "/o" "1.5" "T" "H").1) (gen_download_id "u" "1.5")).2
      ≠ [] :=
  pause_state_noop_duplicate_events
    (process_queue (add_download (init_manager [] 3) "u" "video" "best"
      "/o" "1.5" "T" "H").1)
    (gen_download_id "u" "1.5")
    { id := gen_download_id "u" "1.5", url := "u", format_type := "video",
      quality := "best", output_path := "/o", created_at := "T",
      status := DownloadStatus.downloading }
    (by decide) (by decide)

set_option maxRecDepth 1000000 in
/-- C1: after four adds and a tick (3 workers executing, 3 tracked), one
worker's attempt fails with retries remaining: the manager drops it from
active_downloads (2 tracked) while its thread keeps executing (3
executing); the next tick then starts a fourth worker — 4 workers
executing with max_concurrent = 3, violating the claimed invariant. -/
theorem tick_exceeds_concurrency_limit :
    c1s5.max_concurrent = 3 ∧ executing_count c1s5 = 3 ∧
    executing_count c1s6 = 3 ∧ c1s6.active_downloads.length = 2 ∧
    executing_count c1s7 = 4 := by
  exact ⟨rfl, by decide, by decide, by decide, by decide⟩
